import Mathlib

/-!
# Traffic_Light_Controller: verification of the FSM core

Shallow embedding of the two implementations of the traffic-light
controller:

* `nextStateCpp`, `updateLights`, `loopStep` model the C++ simulation
  (`simulation/simulation.cpp`): states are the `StateType` enumerators
  encoded as natural numbers (the enum's underlying integer), elapsed
  time is in milliseconds.
* `nextStateVerilog`, `vLight` model the Verilog module
  (`src/Traffic_Controller.v`): the 3-bit state register uses the same
  encoding; the countdown timer is abstracted by the boolean
  `timerZero` (`state_timer == 0`) that the combinational next-state
  logic reads.

State encoding (identical in both sources):
0 = INIT, 1 = NS_GREEN, 2 = NS_YELLOW, 3 = EW_GREEN, 4 = EW_YELLOW,
5 = EMERGENCY_TRANS, 6 = EMERGENCY_GREEN.  Any other value is outside
the defined enumeration (reachable only through corruption; the Verilog
register can physically hold 7).
-/

/-- State durations of the C++ simulation, in milliseconds. -/
def NS_GREEN_MS : Nat := 10000

def EW_GREEN_MS : Nat := 6000

def YELLOW_MS : Nat := 2000

def EMERGENCY_WAIT_MS : Nat := 500

def INIT_MS : Nat := 100

/-- The four debounced boolean inputs read by `readInputs()` each tick. -/
structure InputSample where
  reset_active : Bool
  emergency_active : Bool
  ns_sensor_active : Bool
  ew_sensor_active : Bool
deriving DecidableEq, Repr

/-- The four lamp outputs: NS green, NS yellow, EW green, EW yellow. -/
structure LightPattern where
  nsG : Bool
  nsY : Bool
  ewG : Bool
  ewY : Bool
deriving DecidableEq, Repr

/-- The all-lamps-off pattern (`INIT`/default case of `updateLights`). -/
def allOff : LightPattern := ⟨false, false, false, false⟩

/-- Output mapper of the C++ simulation (`updateLights`): all lights are
first turned off, then exactly the lamp selected by the switch on
`current_state` is driven high; `INIT` and `default` leave all off. -/
def updateLights : Nat → LightPattern
  | 1 => ⟨true, false, false, false⟩   -- NS_GREEN
  | 6 => ⟨true, false, false, false⟩   -- EMERGENCY_GREEN: NS green during emergency
  | 2 => ⟨false, true, false, false⟩   -- NS_YELLOW
  | 3 => ⟨false, false, true, false⟩   -- EW_GREEN
  | 4 => ⟨false, false, false, true⟩   -- EW_YELLOW
  | 5 => ⟨false, false, false, true⟩   -- EMERGENCY_TRANS: EW yellow while settling
  | _ => allOff                        -- INIT and default: all off

/-- Output logic of the Verilog module (`always @(*) case (current_state)`
driving `light[3:0]` = EW_Y, EW_G, NS_Y, NS_G). -/
def vLight : Nat → LightPattern
  | 1 => ⟨true, false, false, false⟩   -- 4'b0001
  | 2 => ⟨false, true, false, false⟩   -- 4'b0010
  | 3 => ⟨false, false, true, false⟩   -- 4'b0100
  | 4 => ⟨false, false, false, true⟩   -- 4'b1000
  | 5 => ⟨false, false, false, true⟩   -- 4'b1000
  | 6 => ⟨true, false, false, false⟩   -- 4'b0001
  | _ => allOff                        -- INIT and default: 4'b0000

/-- Next-state logic of the C++ `loop()` (steps 3 of the loop body):
`next_state` defaults to `current_state`, then the emergency switch or
the normal-operation switch may override it.  `elapsed` is
`millis() - stateStartTime` in milliseconds. -/
def nextStateCpp (s : Nat) (emergency ns_sensor ew_sensor : Bool)
    (elapsed : Nat) : Nat :=
  if emergency then
    match s with
    | 1 => 6                                          -- NS_GREEN → EMERGENCY_GREEN
    | 6 => 6                                          -- EMERGENCY_GREEN stays
    | 3 => 4                                          -- EW_GREEN → EW_YELLOW first
    | 4 => if YELLOW_MS ≤ elapsed then 5 else 4       -- EW_YELLOW waits out yellow
    | 5 => if EMERGENCY_WAIT_MS ≤ elapsed then 6 else 5 -- EMERGENCY_TRANS waits
    | 2 => 6                                          -- NS_YELLOW → EMERGENCY_GREEN
    | _ => 6                                          -- INIT and default
  else
    match s with
    | 0 => if INIT_MS ≤ elapsed then 1 else 0         -- INIT → NS_GREEN after settle
    | 1 => if NS_GREEN_MS ≤ elapsed ∧ ew_sensor = true then 2 else 1
    | 2 => if YELLOW_MS ≤ elapsed then 3 else 2
    | 3 => if EW_GREEN_MS ≤ elapsed ∧ ns_sensor = true then 4 else 3
    | 4 => if YELLOW_MS ≤ elapsed then 1 else 4
    | 5 => 1                                          -- emergency ended during TRANS
    | 6 => 1                                          -- emergency ended → NS_GREEN
    | _ => 0                                          -- default: should not happen

/-- Combinational next-state logic of the Verilog module
(`always @(*)`): `timerZero` stands for `state_timer == 0`. -/
def nextStateVerilog (s : Nat) (emergency ns_sensor ew_sensor : Bool)
    (timerZero : Bool) : Nat :=
  if emergency then
    match s with
    | 1 => 6                                  -- NS_GREEN → EMERGENCY_GREEN
    | 6 => 6                                  -- EMERGENCY_GREEN stays
    | 3 => 4                                  -- EW_GREEN → EW_YELLOW
    | 4 => 5                                  -- EW_YELLOW → EMERGENCY_TRANS
    | 2 => 6                                  -- NS_YELLOW → EMERGENCY_GREEN
    | 5 => 6                                  -- EMERGENCY_TRANS → EMERGENCY_GREEN
    | _ => 6                                  -- INIT and default
  else
    match s with
    | 0 => 1                                  -- INIT → NS_GREEN (no gate)
    | 1 => if timerZero = true ∧ ew_sensor = true then 2 else 1
    | 2 => if timerZero = true then 3 else 2
    | 3 => if timerZero = true ∧ ns_sensor = true then 4 else 3
    | 4 => if timerZero = true then 1 else 4
    | 5 => if timerZero = true then 1 else 5  -- emergency cleared at expiry
    | 6 => 1                                  -- EMERGENCY_GREEN → NS_GREEN
    | _ => 0                                  -- default

/-- State durations of the Verilog module, in clock cycles. -/
def NS_GREEN_CYCLES : Nat := 100

def EW_GREEN_CYCLES : Nat := 60

def YELLOW_CYCLES : Nat := 20

def EMERGENCY_WAIT : Nat := 5

/-- Timer value loaded by the Verilog state register on entry to each
state (`case (next_state)` in the clocked block). -/
def timerReload : Nat → Nat
  | 1 => NS_GREEN_CYCLES - 1
  | 3 => EW_GREEN_CYCLES - 1
  | 2 => YELLOW_CYCLES - 1
  | 4 => YELLOW_CYCLES - 1
  | 5 => EMERGENCY_WAIT - 1
  | 6 => 1
  | 0 => 1
  | _ => 1

/-- One clock edge of the Verilog state register
(`always @(posedge clk or posedge reset)`): reset forces `INIT` with
timer 0; otherwise the combinational next state is latched, the timer is
reloaded on a state change and decremented (saturating at 0) otherwise. -/
def vStep (s timer : Nat) (reset emergency ns_sensor ew_sensor : Bool) :
    Nat × Nat :=
  if reset then (0, 0)
  else
    let nxt := nextStateVerilog s emergency ns_sensor ew_sensor
      (decide (timer = 0))
    if nxt ≠ s then (nxt, timerReload nxt)
    else if timer ≠ 0 then (nxt, timer - 1)
    else (nxt, timer)

/-- The persistent state of the C++ loop: the current FSM state and the
`millis()` value recorded when it was entered. -/
structure Ctrl where
  current_state : Nat
  stateStartTime : Nat
deriving DecidableEq, Repr

/-- One iteration of the C++ `loop()`: reset forces `INIT` and restarts
the timer, bypassing the transition logic; otherwise the next state is
computed from the elapsed time and committed (restarting the timer)
exactly when it differs from the current state. -/
def loopStep (c : Ctrl) (inp : InputSample) (now : Nat) : Ctrl :=
  if inp.reset_active then
    { current_state := 0, stateStartTime := now }
  else
    let elapsed := now - c.stateStartTime
    let ns := nextStateCpp c.current_state inp.emergency_active
      inp.ns_sensor_active inp.ew_sensor_active elapsed
    if ns ≠ c.current_state then
      { current_state := ns, stateStartTime := now }
    else c

/-- The list of states visited by the C++ loop run from `c` with the
fixed input sample `inp`, one entry per tick time in `times` plus the
initial state. -/
def runTrace (c : Ctrl) (inp : InputSample) : List Nat → List Nat
  | [] => [c.current_state]
  | t :: ts => c.current_state :: runTrace (loopStep c inp t) inp ts

/-- Mutual exclusion of a light pattern: at most one of the two greens
and at most one of the two yellows is lit. -/
def mutexOk (p : LightPattern) : Prop :=
  ¬(p.nsG = true ∧ p.ewG = true) ∧ ¬(p.nsY = true ∧ p.ewY = true)

/-- C1: for every state value, including `Init` and every unrecognized
value, both output mappers produce a pattern with at most one of the two
greens and at most one of the two yellows lit, and state `Init` (code 0)
maps to the all-false pattern. -/
theorem outputMapper_mutex_and_init_off (s : Nat) :
    mutexOk (updateLights s) ∧ mutexOk (vLight s) ∧
      updateLights 0 = allOff ∧ vLight 0 = allOff := by
  rcases s with _ | _ | _ | _ | _ | _ | _ | n <;>
    simp [updateLights, vLight, mutexOk, allOff]

/-- C2 counterexample: the state value 7 lies outside the enumeration,
yet with `emergencyRequested = true` the C++ transition function sends
it to `EMERGENCY_GREEN` (6), not to `Init` (0). -/
theorem unknownState_emergency_cex :
    nextStateCpp 7 true false false 0 = 6 ∧ (6 : Nat) ≠ 0 := by
  decide

/-- C2 (amended): every state value outside the defined enumeration maps
in both output mappers to all-lamps-off for every input; the transition
functions send it to `Init` whenever `emergencyRequested = false`, and to
`EmergencyGreen` (not `Init`) whenever `emergencyRequested = true`. -/
theorem unknownState_failsafe (s : Nat) (h : 7 ≤ s) (ns ew : Bool)
    (e : Nat) (b : Bool) :
    updateLights s = allOff ∧ vLight s = allOff ∧
      nextStateCpp s false ns ew e = 0 ∧ nextStateCpp s true ns ew e = 6 ∧
      nextStateVerilog s false ns ew b = 0 ∧
      nextStateVerilog s true ns ew b = 6 := by
  obtain ⟨t, rfl⟩ : ∃ t, s = t + 7 := ⟨s - 7, by omega⟩
  exact ⟨rfl, rfl, rfl, rfl, rfl, rfl⟩

/-- C2 witness: the fail-safe behavior evaluated at the concrete
out-of-range state 7. -/
theorem unknownState_failsafe_witness :
    updateLights 7 = allOff ∧ vLight 7 = allOff ∧
      nextStateCpp 7 false true true 5000 = 0 ∧
      nextStateCpp 7 true true true 5000 = 6 ∧
      nextStateVerilog 7 false true true true = 0 ∧
      nextStateVerilog 7 true true true true = 6 :=
  unknownState_failsafe 7 (by decide) true true 5000 true

/-- C3 counterexample: in state `NsGreen` with `emergencyRequested = true`
(and no reset), the C++ transition function leaves for `EMERGENCY_GREEN`
at elapsed 0, long before the 10 s minimum dwell of `NsGreen`. -/
theorem minimum_dwell_cex :
    nextStateCpp 1 true false false 0 = 6 ∧ (6 : Nat) ≠ 1 ∧
      (0 : Nat) < NS_GREEN_MS := by
  decide

/-- C3 (amended): in both implementations, normal-branch ticks (no
reset, no emergency) never leave `NsGreen`, `NsYellow`, `EwGreen` or
`EwYellow` before the configured dwell (elapsed below the duration in
the C++, timer not yet expired in the Verilog), and the Verilog normal
branch also holds `EmergencyTransition` until its timer expires; on
emergency-branch ticks the C++ never leaves `EwYellow` before 2 s nor
`EmergencyTransition` before 0.5 s.  Dwell fails everywhere else: the
emergency branch may leave `NsGreen`, `NsYellow`, `EwGreen` at once in
both implementations, the Verilog emergency branch leaves `EwYellow`
and `EmergencyTransition` unconditionally, and the C++ normal branch
leaves `EmergencyTransition` unconditionally. -/
theorem minimum_dwell_amended (ns ew : Bool) (e : Nat) (b : Bool) :
    (e < NS_GREEN_MS → nextStateCpp 1 false ns ew e = 1) ∧
      (e < YELLOW_MS → nextStateCpp 2 false ns ew e = 2) ∧
      (e < EW_GREEN_MS → nextStateCpp 3 false ns ew e = 3) ∧
      (e < YELLOW_MS → nextStateCpp 4 false ns ew e = 4) ∧
      (e < YELLOW_MS → nextStateCpp 4 true ns ew e = 4) ∧
      (e < EMERGENCY_WAIT_MS → nextStateCpp 5 true ns ew e = 5) ∧
      nextStateVerilog 1 false ns ew false = 1 ∧
      nextStateVerilog 2 false ns ew false = 2 ∧
      nextStateVerilog 3 false ns ew false = 3 ∧
      nextStateVerilog 4 false ns ew false = 4 ∧
      nextStateVerilog 5 false ns ew false = 5 ∧
      nextStateVerilog 4 true ns ew b = 5 ∧
      nextStateVerilog 5 true ns ew b = 6 ∧
      nextStateCpp 5 false ns ew e = 1 := by
  refine ⟨fun h => ?_, fun h => ?_, fun h => ?_, fun h => ?_,
    fun h => ?_, fun h => ?_, rfl, rfl, rfl, rfl, rfl, rfl, rfl, rfl⟩
  · have hne : ¬(NS_GREEN_MS ≤ e ∧ ew = true) := fun hc => absurd hc.1 (by omega)
    exact if_neg hne
  · have hne : ¬(YELLOW_MS ≤ e) := by omega
    exact if_neg hne
  · have hne : ¬(EW_GREEN_MS ≤ e ∧ ns = true) := fun hc => absurd hc.1 (by omega)
    exact if_neg hne
  · have hne : ¬(YELLOW_MS ≤ e) := by omega
    exact if_neg hne
  · have hne : ¬(YELLOW_MS ≤ e) := by omega
    exact if_neg hne
  · have hne : ¬(EMERGENCY_WAIT_MS ≤ e) := by omega
    exact if_neg hne

/-- C3 witness: the dwell guarantees evaluated at elapsed 0. -/
theorem minimum_dwell_witness :
    nextStateCpp 1 false true true 0 = 1 :=
  (minimum_dwell_amended true true 0 false).1 (by decide)

/-- Duration the C++ `loop()` associates with each state
(`currentDuration`), in milliseconds; identifying the Verilog condition
`state_timer == 0` with the C++ condition `durMs s ≤ elapsed` is the
tick-to-Duration conversion relating the two drivers. -/
def durMs : Nat → Nat
  | 0 => INIT_MS
  | 1 => NS_GREEN_MS
  | 2 => YELLOW_MS
  | 3 => EW_GREEN_MS
  | 4 => YELLOW_MS
  | 5 => EMERGENCY_WAIT_MS
  | _ => 0

/-- C4 counterexample: in state `EwYellow` with the emergency input held
and elapsed 0 (timer not expired under the conversion), the C++
transition function stays in `EwYellow` (4) while the Verilog one moves
to `EmergencyTransition` (5) — the state sequences diverge. -/
theorem cpp_verilog_divergence_cex :
    nextStateCpp 4 true false false 0 = 4 ∧
      nextStateVerilog 4 true false false (decide (durMs 4 ≤ 0)) = 5 ∧
      (4 : Nat) ≠ 5 := by
  decide

/-- C4 (amended): under the identification `state_timer == 0` ↔
`durMs s ≤ elapsed`, the two per-tick transition functions agree on
every state and input except the four divergent cases: `Init` and
`EmergencyTransition` in the normal branch (the C++ gates `Init` on
100 ms and leaves `EmergencyTransition` unconditionally, the Verilog
does the opposite), and `EwYellow` and `EmergencyTransition` in the
emergency branch (the C++ gates them on the yellow/wait durations, the
Verilog moves unconditionally). -/
theorem cpp_verilog_agree (s : Nat) (em ns ew : Bool) (e : Nat)
    (hn : em = false → s ≠ 0 ∧ s ≠ 5)
    (he : em = true → s ≠ 4 ∧ s ≠ 5) :
    nextStateVerilog s em ns ew (decide (durMs s ≤ e)) =
      nextStateCpp s em ns ew e := by
  rcases em
  · rcases s with _ | _ | _ | _ | _ | _ | _ | n
    · exact absurd rfl (hn rfl).1
    · show (if decide (durMs 1 ≤ e) = true ∧ ew = true then 2 else 1)
          = if NS_GREEN_MS ≤ e ∧ ew = true then 2 else 1
      exact if_congr (by simp [durMs]) rfl rfl
    · show (if decide (durMs 2 ≤ e) = true then 3 else 2)
          = if YELLOW_MS ≤ e then 3 else 2
      exact if_congr (by simp [durMs]) rfl rfl
    · show (if decide (durMs 3 ≤ e) = true ∧ ns = true then 4 else 3)
          = if EW_GREEN_MS ≤ e ∧ ns = true then 4 else 3
      exact if_congr (by simp [durMs]) rfl rfl
    · show (if decide (durMs 4 ≤ e) = true then 1 else 4)
          = if YELLOW_MS ≤ e then 1 else 4
      exact if_congr (by simp [durMs]) rfl rfl
    · exact absurd rfl (hn rfl).2
    · rfl
    · rfl
  · rcases s with _ | _ | _ | _ | _ | _ | _ | n
    · rfl
    · rfl
    · rfl
    · rfl
    · exact absurd rfl (he rfl).1
    · exact absurd rfl (he rfl).2
    · rfl
    · rfl

/-- C4 witness: the two transition functions evaluated at the concrete
agreeing point `NsGreen`, normal branch, elapsed exactly 10 s with EW
demand. -/
theorem cpp_verilog_agree_witness :
    nextStateVerilog 1 false false true (decide (durMs 1 ≤ 10000)) =
      nextStateCpp 1 false false true 10000 :=
  cpp_verilog_agree 1 false false true 10000 (fun _ => by decide)
    (fun hc => absurd hc (by decide))

/-- C5: a tick of the C++ loop with `resetRequested = true` forces the
state to `Init` (0) and the phase clock (`now - stateStartTime`) to 0,
whatever the current state and the emergency/demand inputs of that same
tick; likewise a Verilog clock edge with `reset` high forces
`current_state = INIT` and `state_timer = 0` regardless of the other
inputs. -/
theorem reset_dominance (c : Ctrl) (em ns ew : Bool) (now : Nat)
    (s timer : Nat) :
    (loopStep c ⟨true, em, ns, ew⟩ now).current_state = 0 ∧
      now - (loopStep c ⟨true, em, ns, ew⟩ now).stateStartTime = 0 ∧
      vStep s timer true em ns ew = (0, 0) :=
  ⟨rfl, Nat.sub_self now, rfl⟩

/-- C6: on a normal-branch tick in `NsGreen` (no reset, no emergency),
the state persists for every elapsed time when `ewDemand = false`, and
moves to `NsYellow` exactly when elapsed ≥ 10 s and `ewDemand = true`. -/
theorem nsGreen_demand_gating (ns ew : Bool) (e : Nat) :
    nextStateCpp 1 false ns false e = 1 ∧
      (nextStateCpp 1 false ns ew e = 2 ↔ NS_GREEN_MS ≤ e ∧ ew = true) := by
  constructor
  · have hne : ¬(NS_GREEN_MS ≤ e ∧ (false : Bool) = true) :=
      fun hc => absurd hc.2 (by decide)
    exact if_neg hne
  · show (if NS_GREEN_MS ≤ e ∧ ew = true then 2 else 1) = 2 ↔
      NS_GREEN_MS ≤ e ∧ ew = true
    by_cases hc : NS_GREEN_MS ≤ e ∧ ew = true
    · simp [if_pos hc, hc]
    · simp [if_neg hc, hc]

/-- C8: a normal-branch tick (no reset, no emergency) taken in
`EmergencyGreen` (6) yields `NsGreen` (1) directly, with no intermediate
yellow state, for every elapsed time and demand combination; the same
holds from `EmergencyTransition` (5). -/
theorem emergency_resume (ns ew : Bool) (e : Nat) :
    nextStateCpp 6 false ns ew e = 1 ∧ nextStateCpp 5 false ns ew e = 1 :=
  ⟨rfl, rfl⟩

/-- C9 counterexample: at elapsed 0 (< 0.5 s) the C++ normal branch
already leaves `EmergencyTransition` for `NsGreen`, where the claim says
it should remain. -/
theorem emergencyTrans_normal_cex :
    nextStateCpp 5 false false false 0 = 1 ∧ (1 : Nat) ≠ 5 ∧
      (0 : Nat) < EMERGENCY_WAIT_MS := by
  decide

/-- C9 (amended): in the normal branch the C++ transition function
leaves `EmergencyTransition` for `NsGreen` unconditionally, for every
elapsed time; only the Verilog implementation gates this transition on
timer expiry (staying in `EmergencyTransition` otherwise). -/
theorem emergencyTrans_normal_amended (ns ew : Bool) (e : Nat) (b : Bool) :
    nextStateCpp 5 false ns ew e = 1 ∧
      nextStateVerilog 5 false ns ew b = (if b = true then 1 else 5) :=
  ⟨rfl, rfl⟩

/-- C10: with `emergencyRequested = true` and no reset, both transition
functions send `Init` (0) and every state value outside the enumeration
to `EmergencyGreen` (6), for every elapsed time, timer value and demand
combination. -/
theorem unknown_or_init_emergency (s : Nat) (h : s = 0 ∨ 7 ≤ s)
    (ns ew : Bool) (e : Nat) (b : Bool) :
    nextStateCpp s true ns ew e = 6 ∧ nextStateVerilog s true ns ew b = 6 := by
  rcases h with rfl | h
  · exact ⟨rfl, rfl⟩
  · obtain ⟨t, rfl⟩ : ∃ t, s = t + 7 := ⟨s - 7, by omega⟩
    exact ⟨rfl, rfl⟩

/-- C10 witness: the emergency fail-safe evaluated at the concrete
states 0 (`Init`) and 7 (outside the enumeration). -/
theorem unknown_or_init_emergency_witness :
    (nextStateCpp 0 true false false 0 = 6 ∧
        nextStateVerilog 0 true false false false = 6) ∧
      (nextStateCpp 7 true true true 123 = 6 ∧
        nextStateVerilog 7 true true true true = 6) :=
  ⟨unknown_or_init_emergency 0 (Or.inl rfl) false false 0 false,
    unknown_or_init_emergency 7 (Or.inr (by decide)) true true 123 true⟩

/-- One allowed move of the emergency safety path out of `EwGreen` (3):
stay put, or advance one stage along
`EwGreen → EwYellow → EmergencyTransition → EmergencyGreen`. -/
def emStep (a b : Nat) : Prop :=
  b = a ∨ (a = 3 ∧ b = 4) ∨ (a = 4 ∧ b = 5) ∨ (a = 5 ∧ b = 6)

/-- The committed state after one non-reset loop iteration is exactly
what the next-state logic computed (also when it equals the current
state and no commit happens). -/
lemma loopStep_state (c : Ctrl) (inp : InputSample) (t : Nat)
    (h : inp.reset_active = false) :
    (loopStep c inp t).current_state =
      nextStateCpp c.current_state inp.emergency_active
        inp.ns_sensor_active inp.ew_sensor_active (t - c.stateStartTime) := by
  unfold loopStep
  rw [h]
  simp only [Bool.false_eq_true, if_false]
  split_ifs with hne
  · rfl
  · exact (not_not.mp hne).symm

/-- Every trace starts with the state of its initial controller. -/
lemma runTrace_head (c : Ctrl) (inp : InputSample) (ts : List Nat) :
    ∃ l, runTrace c inp ts = c.current_state :: l := by
  cases ts
  · exact ⟨[], rfl⟩
  · exact ⟨_, rfl⟩

/-- Under a held emergency input (no reset), one loop iteration from any
stage of the emergency path performs an `emStep` move and stays within
the path's four states. -/
lemma emLoop (s start t : Nat) (ns ew : Bool)
    (h : s = 3 ∨ s = 4 ∨ s = 5 ∨ s = 6) :
    emStep s (loopStep ⟨s, start⟩ ⟨false, true, ns, ew⟩ t).current_state ∧
      ((loopStep ⟨s, start⟩ ⟨false, true, ns, ew⟩ t).current_state = 3 ∨
        (loopStep ⟨s, start⟩ ⟨false, true, ns, ew⟩ t).current_state = 4 ∨
        (loopStep ⟨s, start⟩ ⟨false, true, ns, ew⟩ t).current_state = 5 ∨
        (loopStep ⟨s, start⟩ ⟨false, true, ns, ew⟩ t).current_state = 6) := by
  rcases h with rfl | rfl | rfl | rfl <;> rw [loopStep_state _ _ _ rfl]
  · exact ⟨Or.inr (Or.inl ⟨rfl, rfl⟩), Or.inr (Or.inl rfl)⟩
  · have hx : nextStateCpp 4 true ns ew (t - start) =
        if YELLOW_MS ≤ t - start then 5 else 4 := rfl
    rw [hx]
    by_cases hg : YELLOW_MS ≤ t - start
    · rw [if_pos hg]
      exact ⟨Or.inr (Or.inr (Or.inl ⟨rfl, rfl⟩)), Or.inr (Or.inr (Or.inl rfl))⟩
    · rw [if_neg hg]
      exact ⟨Or.inl rfl, Or.inr (Or.inl rfl)⟩
  · have hx : nextStateCpp 5 true ns ew (t - start) =
        if EMERGENCY_WAIT_MS ≤ t - start then 6 else 5 := rfl
    rw [hx]
    by_cases hg : EMERGENCY_WAIT_MS ≤ t - start
    · rw [if_pos hg]
      exact ⟨Or.inr (Or.inr (Or.inr ⟨rfl, rfl⟩)),
        Or.inr (Or.inr (Or.inr rfl))⟩
    · rw [if_neg hg]
      exact ⟨Or.inl rfl, Or.inr (Or.inr (Or.inl rfl))⟩
  · exact ⟨Or.inl rfl, Or.inr (Or.inr (Or.inr rfl))⟩

/-- Every trace started inside the emergency path under a held emergency
input is an `emStep` chain. -/
lemma emChainAux (ns ew : Bool) : ∀ (times : List Nat) (s start : Nat),
    (s = 3 ∨ s = 4 ∨ s = 5 ∨ s = 6) →
    List.Chain' emStep (runTrace ⟨s, start⟩ ⟨false, true, ns, ew⟩ times) := by
  intro times
  induction times with
  | nil =>
      intro s start _
      exact List.chain'_singleton _
  | cons t ts ih =>
      intro s start h
      obtain ⟨hstep, hmem⟩ := emLoop s start t ns ew h
      obtain ⟨l, hl⟩ := runTrace_head
        (loopStep ⟨s, start⟩ ⟨false, true, ns, ew⟩ t) ⟨false, true, ns, ew⟩ ts
      have hchain := ih (loopStep ⟨s, start⟩ ⟨false, true, ns, ew⟩ t).current_state
        (loopStep ⟨s, start⟩ ⟨false, true, ns, ew⟩ t).stateStartTime hmem
      show List.Chain' emStep
        (s :: runTrace (loopStep ⟨s, start⟩ ⟨false, true, ns, ew⟩ t)
          ⟨false, true, ns, ew⟩ ts)
      rw [hl] at hchain ⊢
      exact List.chain'_cons.mpr ⟨hstep, hchain⟩

/-- C7 counterexample: under a held emergency the Verilog transition
function leaves `EwYellow` (4) for `EmergencyTransition` (5) and
`EmergencyTransition` for `EmergencyGreen` (6) with the state timer not
yet expired (elapsed 0 under the timer-to-duration identification), so
neither the 2 s hold of `EwYellow` nor the 0.5 s hold of
`EmergencyTransition` exists in that implementation. -/
theorem emergency_path_verilog_cex :
    nextStateVerilog 4 true false false (decide (YELLOW_MS ≤ 0)) = 5 ∧
      nextStateVerilog 5 true false false
        (decide (EMERGENCY_WAIT_MS ≤ 0)) = 6 ∧
      (5 : Nat) ≠ 4 ∧ (6 : Nat) ≠ 5 ∧ (0 : Nat) < YELLOW_MS ∧
      (0 : Nat) < EMERGENCY_WAIT_MS := by
  decide

/-- C7 (amended): every run of the C++ loop started in `EwGreen` (3)
under a constantly held emergency input (no reset) visits, as its
sequence of distinct states, a prefix of
`EwGreen → EwYellow → EmergencyTransition → EmergencyGreen` in that
order with no state skipped (the trace is an `emStep` chain from 3);
in the C++ `EwGreen` leaves for `EwYellow` immediately, `EwYellow` is
held until 2 s have elapsed, `EmergencyTransition` is held until 0.5 s
have elapsed, and `EmergencyGreen` is terminal while the emergency
lasts.  The Verilog visits the same states in the same order with none
skipped, but holds `EwYellow` and `EmergencyTransition` for a single
clock cycle each — regardless of the timer — instead of the 2 s and
0.5 s durations. -/
theorem emergency_safety_path (start : Nat) (ns ew : Bool)
    (times : List Nat) (b : Bool) :
    List.Chain' emStep (runTrace ⟨3, start⟩ ⟨false, true, ns, ew⟩ times) ∧
      (∀ e, nextStateCpp 3 true ns ew e = 4) ∧
      (∀ e, nextStateCpp 4 true ns ew e =
        if YELLOW_MS ≤ e then 5 else 4) ∧
      (∀ e, nextStateCpp 5 true ns ew e =
        if EMERGENCY_WAIT_MS ≤ e then 6 else 5) ∧
      (∀ e, nextStateCpp 6 true ns ew e = 6) ∧
      nextStateVerilog 3 true ns ew b = 4 ∧
      nextStateVerilog 4 true ns ew b = 5 ∧
      nextStateVerilog 5 true ns ew b = 6 ∧
      nextStateVerilog 6 true ns ew b = 6 :=
  ⟨emChainAux ns ew times 3 start (Or.inl rfl),
    fun _ => rfl, fun _ => rfl, fun _ => rfl, fun _ => rfl,
    rfl, rfl, rfl, rfl⟩
